import Mathlib

/-!
Shallow embedding of the `reddish` post controller
(`src/server/controllers/posts.js`) and of the two utility functions it
requires (`paginateResults`, `postTypeValidator`), together with proofs of
the behavioural properties stated in the repository specification.

Identifiers are modelled as natural numbers; the JavaScript code compares
identifiers through `toString()`, which coincides with plain equality here.
-/

namespace Reddish

/-! ## Pagination calculator -/

/-- A previous/next page reference `{page, limit}`. -/
structure PageRef where
  page : Nat
  limit : Nat
deriving DecidableEq, Repr

/-- The window descriptor produced by the pagination calculator. -/
structure PaginationWindow where
  startIndex : Nat
  endIndex : Nat
  previous : Option PageRef
  next : Option PageRef
deriving DecidableEq, Repr

/-- Modelled from the spec: the utility `paginateResults` is required by
`src/server/controllers/posts.js` (line 8) but its implementation file
(`../utils/paginateResults`) is not under `src/`.  The spec's contract:
given `page` (1-based), `limit`, `totalCount`, produce
`{startIndex, endIndex, previous, next}` with `startIndex = (page-1)*limit`,
`endIndex = page*limit`, `previous = {page: page-1, limit}` iff
`startIndex > 0`, and `next = {page: page+1, limit}` iff
`endIndex < totalCount`. -/
def paginateResults (page limit totalCount : Nat) : PaginationWindow :=
  let startIndex := (page - 1) * limit
  let endIndex := page * limit
  { startIndex := startIndex
    endIndex := endIndex
    previous := if startIndex > 0 then some ⟨page - 1, limit⟩ else none
    next := if endIndex < totalCount then some ⟨page + 1, limit⟩ else none }

/-- The result set of `GET /new`: the route runs
`.limit(limit).skip(paginated.startIndex)` over the (already sorted) list
of posts, i.e. it drops `startIndex` items and then takes `limit` items. -/
def getNewResults {α : Type} (sortedPosts : List α) (page limit : Nat) :
    List α :=
  let paginated := paginateResults page limit sortedPosts.length
  (sortedPosts.drop paginated.startIndex).take limit

/-! ## Post submission validator -/

/-- The failure kinds of the post submission validator. -/
inductive ValidationError where
  | invalidPostType
  | emptySubmission
deriving DecidableEq, Repr

/-- The normalized result of the post submission validator: the declared
type together with exactly one populated submission field. -/
structure ValidatedFields where
  postType : String
  textSubmission : Option String
  linkSubmission : Option String
  imageSubmission : Option String
deriving DecidableEq, Repr

/-- Modelled from the spec: the utility `postTypeValidator` is required by
`src/server/controllers/posts.js` (line 5) but its implementation file
(`../utils/postTypeValidator`) is not under `src/`.  The spec's contract:
given a declared `postType` and three optional candidate fields, return the
normalized field for that type, or fail with an `InvalidPostType` kind if
the type is not one of the three recognized values, or an `EmptySubmission`
kind if the field corresponding to the declared type is missing/blank
(the spec's worked example treats the empty string as blank).  Exactly one
output field is ever populated. -/
def postTypeValidator (postType : String)
    (textSubmission linkSubmission imageSubmission : Option String) :
    Except ValidationError ValidatedFields :=
  match postType with
  | "Text" =>
    match textSubmission with
    | none => .error .emptySubmission
    | some t =>
      if t = "" then .error .emptySubmission
      else .ok ⟨"Text", some t, none, none⟩
  | "Link" =>
    match linkSubmission with
    | none => .error .emptySubmission
    | some l =>
      if l = "" then .error .emptySubmission
      else .ok ⟨"Link", none, some l, none⟩
  | "Image" =>
    match imageSubmission with
    | none => .error .emptySubmission
    | some i =>
      if i = "" then .error .emptySubmission
      else .ok ⟨"Image", none, none, some i⟩
  | _ => .error .invalidPostType


/-! ## Data model

Records of the document database, as used by `posts.js`.  Only the fields
the controller reads or writes are materialized.  Identifier comparisons in
the source go through `toString()`; here identifiers are naturals compared
by equality. -/

/-- The stored shape of an image submission: `{imageLink, imageId}`. -/
structure ImageRec where
  imageLink : String
  imageId : String
deriving DecidableEq, Repr

/-- A Post document. -/
structure PostRec where
  pid : Nat
  title : String
  postType : String
  textSubmission : Option String
  linkSubmission : Option String
  imageSubmission : Option ImageRec
  author : Nat
  subreddit : Nat
  pointsCount : Nat
  upvotedBy : List Nat
  updatedAt : Nat
deriving DecidableEq, Repr

/-- A User document (`posts` array and the post-karma counter). -/
structure UserRec where
  uid : Nat
  posts : List Nat
  postKarma : Nat
deriving DecidableEq, Repr

/-- A Subreddit document (`posts` array). -/
structure SubredditRec where
  sid : Nat
  posts : List Nat
deriving DecidableEq, Repr

/-- The database state seen by the controller. -/
structure DB where
  posts : List PostRec
  users : List UserRec
  subreddits : List SubredditRec
deriving DecidableEq, Repr

/-- `Post.findById`. -/
def DB.findPost (db : DB) (id : Nat) : Option PostRec :=
  db.posts.find? (fun p => p.pid == id)

/-- `User.findById`. -/
def DB.findUser (db : DB) (id : Nat) : Option UserRec :=
  db.users.find? (fun u => u.uid == id)

/-- `Subreddit.findById`. -/
def DB.findSubreddit (db : DB) (id : Nat) : Option SubredditRec :=
  db.subreddits.find? (fun s => s.sid == id)

/-- `document.save()` on an already-stored post: replace the stored
document with the same identifier. -/
def DB.savePost (db : DB) (p : PostRec) : DB :=
  { db with posts := db.posts.map (fun x => if x.pid == p.pid then p else x) }

/-- `document.save()` on a user. -/
def DB.saveUser (db : DB) (u : UserRec) : DB :=
  { db with users := db.users.map (fun x => if x.uid == u.uid then u else x) }

/-- `document.save()` on a subreddit. -/
def DB.saveSubreddit (db : DB) (s : SubredditRec) : DB :=
  { db with subreddits :=
      db.subreddits.map (fun x => if x.sid == s.sid then s else x) }

/-- The outcome of a request handler. -/
inductive Outcome where
  /-- A success response with the given status code. -/
  | ok (status : Nat)
  /-- An error response `res.status(status).send({message})`. -/
  | err (status : Nat) (message : String)
  /-- A failure propagated from `postTypeValidator`. -/
  | vfail (e : ValidationError)
  /-- An exception thrown inside the handler; no response is sent. -/
  | crash (message : String)
deriving DecidableEq, Repr

/-- A write performed against the database, in program order. -/
inductive WriteEvent where
  | savePost (id : Nat)
  | deletePost (id : Nat)
  | saveSubreddit (id : Nat)
  | saveUser (id : Nat)
deriving DecidableEq, Repr

/-- Is this event the durable creation or deletion of the post itself? -/
def WriteEvent.isPostWrite : WriteEvent → Bool
  | .savePost _ => true
  | .deletePost _ => true
  | _ => false

/-- Is this event an update of a referencing subreddit or author record? -/
def WriteEvent.isRefWrite : WriteEvent → Bool
  | .saveSubreddit _ => true
  | .saveUser _ => true
  | _ => false

/-- Every subreddit/author write in the trace is strictly preceded by the
post write: whenever some reference write occurs among the first `i + 1`
events, the post write already occurs among the first `i` events. -/
def PostFirst (tr : List WriteEvent) : Prop :=
  ∀ i : Nat, (tr.take (i + 1)).any WriteEvent.isRefWrite = true →
    (tr.take i).any WriteEvent.isPostWrite = true

/-! ## The request handlers of `posts.js` -/

/-- The body of `POST /`. -/
structure CreateRequest where
  title : String
  subreddit : Nat
  postType : String
  textSubmission : Option String
  linkSubmission : Option String
  imageSubmission : Option String
deriving DecidableEq, Repr

/-- The `new Post({...})` construction of `router.post` (line 85) followed
by its conditional image-upload block (line 94).  `upload` is the media
host response for this request; `none` means the upload failed, in which
case the handler answers 401 and performs no database write.  The raw
image payload placed into the document by the `...validatedFields` spread
is always overwritten by the upload result before the document is saved,
so it is not materialized in `PostRec`. -/
def buildNewPost (req : CreateRequest) (validatedFields : ValidatedFields)
    (author : UserRec) (newId : Nat) (upload : Option ImageRec) :
    Option PostRec :=
  let newPost : PostRec :=
    { pid := newId
      title := req.title
      postType := validatedFields.postType
      textSubmission := validatedFields.textSubmission
      linkSubmission := validatedFields.linkSubmission
      imageSubmission := none
      author := author.uid
      subreddit := req.subreddit
      pointsCount := 1
      upvotedBy := [author.uid]
      updatedAt := 0 }
  if req.postType = "Image" then
    match upload with
    | none => none
    | some img => some { newPost with imageSubmission := some img }
  else some newPost

/-- `router.post('/')` (lines 53-126).  `reqUser` is the authenticated user
id placed on the request by the auth middleware, `newId` the identifier the
data layer assigns to the new document.  A `postTypeValidator` failure
aborts the handler before any lookup or write (`vfail`).  On success the
post is saved first, then the subreddit's `posts` array, then the author's
`posts` array and karma counter; the returned trace lists these writes in
program order. -/
def createPost (db : DB) (reqUser : Nat) (req : CreateRequest)
    (upload : Option ImageRec) (newId : Nat) :
    Outcome × DB × List WriteEvent :=
  match postTypeValidator req.postType req.textSubmission
      req.linkSubmission req.imageSubmission with
  | .error e => (.vfail e, db, [])
  | .ok validatedFields =>
    match db.findUser reqUser with
    | none => (.err 404 "User does not exist in database.", db, [])
    | some author =>
      match db.findSubreddit req.subreddit with
      | none =>
        (.err 404 ("Subreddit with ID: " ++ toString req.subreddit ++
          " does not exist in database."), db, [])
      | some targetSubreddit =>
        match buildNewPost req validatedFields author newId upload with
        | none => (.err 401 "Image upload failed.", db, [])
        | some newPost =>
          (.ok 201,
            (({ db with posts := db.posts ++ [newPost] }).saveSubreddit
                { targetSubreddit with
                    posts := targetSubreddit.posts ++ [newId] }).saveUser
              { author with
                  posts := author.posts ++ [newId]
                  postKarma := author.postKarma + 1 },
            [.savePost newId, .saveSubreddit targetSubreddit.sid,
              .saveUser author.uid])

/-- The `switch (post.postType)` block of `router.patch` (lines 159-187):
the updated document, or the error response for a failed image upload or
an unrecognized stored post type (`default` branch, status 403). -/
def patchSwitch (post : PostRec) (validatedFields : ValidatedFields)
    (upload : Option ImageRec) : Except Outcome PostRec :=
  if post.postType = "Text" then
    .ok { post with textSubmission := validatedFields.textSubmission }
  else if post.postType = "Link" then
    .ok { post with linkSubmission := validatedFields.linkSubmission }
  else if post.postType = "Image" then
    match upload with
    | none => .error (.err 401 "Image upload failed.")
    | some img => .ok { post with imageSubmission := some img }
  else .error (.err 403 "Invalid post type.")

/-- `router.patch('/:id')` (lines 128-193).  The post and user lookups
both run before the checks; the checks run in source order (post found,
user found, requester is the author), then `postTypeValidator` runs on the
stored post type, then the switch; finally `updatedAt` is assigned and the
document is saved. -/
def patchPost (db : DB) (reqUser : Nat) (id : Nat)
    (textSubmission linkSubmission imageSubmission : Option String)
    (upload : Option ImageRec) (now : Nat) : Outcome × DB :=
  match db.findPost id with
  | none =>
    (.err 404 ("Post with ID: " ++ toString id ++
      " does not exist in database."), db)
  | some post =>
    match db.findUser reqUser with
    | none => (.err 404 "User does not exist in database.", db)
    | some author =>
      if post.author ≠ author.uid then (.err 401 "Access is denied.", db)
      else
        match postTypeValidator post.postType textSubmission
            linkSubmission imageSubmission with
        | .error e => (.vfail e, db)
        | .ok validatedFields =>
          match patchSwitch post validatedFields upload with
          | .error o => (o, db)
          | .ok post1 => (.ok 202, db.savePost { post1 with updatedAt := now })

/-- `router.delete('/:id')` (lines 195-234).  Checks run in source order.
When the post's subreddit is absent, the source builds the 404 message by
interpolating `subreddit._id` with `subreddit` equal to `null` (line 221),
which throws a TypeError before the response is sent; this is modelled as
a `crash` outcome.  On success the post document is deleted first, then
the subreddit's `posts` array is filtered, then the author's; the trace
lists these writes in program order. -/
def deletePost (db : DB) (reqUser : Nat) (id : Nat) :
    Outcome × DB × List WriteEvent :=
  match db.findPost id with
  | none =>
    (.err 404 ("Post with ID: " ++ toString id ++
      " does not exist in database."), db, [])
  | some post =>
    match db.findUser reqUser with
    | none => (.err 404 "User does not exist in database.", db, [])
    | some author =>
      if post.author ≠ author.uid then
        (.err 401 "Access is denied.", db, [])
      else
        match db.findSubreddit post.subreddit with
        | none =>
          (.crash "TypeError: null dereference building the 404 message",
            db, [])
        | some subreddit =>
          (.ok 204,
            (({ db with
                  posts := db.posts.filter (fun p => p.pid != id) }).saveSubreddit
                { subreddit with
                    posts := subreddit.posts.filter (fun q => q != id) }).saveUser
              { author with posts := author.posts.filter (fun q => q != id) },
            [.deletePost id, .saveSubreddit subreddit.sid,
              .saveUser author.uid])

/-! ## Sample data for concrete evaluations -/

/-- A stored Text post with identifier 1, author 10, subreddit 5. -/
def samplePost : PostRec :=
  { pid := 1, title := "hello", postType := "Text"
    textSubmission := some "body", linkSubmission := none
    imageSubmission := none, author := 10, subreddit := 5
    pointsCount := 1, upvotedBy := [10], updatedAt := 0 }

/-- The author of `samplePost`. -/
def sampleAuthor : UserRec := { uid := 10, posts := [1], postKarma := 1 }

/-- A second user, not the author of `samplePost`. -/
def sampleOther : UserRec := { uid := 20, posts := [], postKarma := 0 }

/-- The subreddit of `samplePost`. -/
def sampleSub : SubredditRec := { sid := 5, posts := [1] }

/-- A database holding the sample records. -/
def sampleDB : DB :=
  { posts := [samplePost], users := [sampleAuthor, sampleOther]
    subreddits := [sampleSub] }

/-- A well-formed Text creation request against `sampleDB`. -/
def sampleCreateReq : CreateRequest :=
  { title := "t", subreddit := 5, postType := "Text"
    textSubmission := some "new body", linkSubmission := none
    imageSubmission := none }

/-- An Image creation request against `sampleDB`. -/
def sampleImageReq : CreateRequest :=
  { title := "pic", subreddit := 5, postType := "Image"
    textSubmission := none, linkSubmission := none
    imageSubmission := some "data" }

/-- A stored Text post whose subreddit (99) is absent from `orphanDB`. -/
def orphanPost : PostRec :=
  { pid := 2, title := "orphan", postType := "Text"
    textSubmission := some "body", linkSubmission := none
    imageSubmission := none, author := 10, subreddit := 99
    pointsCount := 1, upvotedBy := [10], updatedAt := 0 }

/-- A database in which `orphanPost` exists, its author exists, but its
subreddit does not. -/
def orphanDB : DB :=
  { posts := [orphanPost], users := [sampleAuthor], subreddits := [] }


end Reddish

namespace Reddish

/-! ## Claims about the pagination calculator and the validator -/

/-- C1: The pagination calculator, for every page ≥ 1, limit > 0 and
totalCount ≥ 0, returns a descriptor with `startIndex = (page-1)*limit`,
`endIndex = page*limit`, a previous reference `{page-1, limit}` present iff
`startIndex > 0`, and a next reference `{page+1, limit}` present iff
`endIndex < totalCount`; in particular `paginate 2 10 25` yields previous
`{1, 10}` and next `{3, 10}`. -/
theorem paginateResults_contract (page limit totalCount : Nat)
    (hpage : 1 ≤ page) (hlimit : 0 < limit) :
    (paginateResults page limit totalCount).startIndex = (page - 1) * limit ∧
    (paginateResults page limit totalCount).endIndex = page * limit ∧
    ((paginateResults page limit totalCount).previous =
        some ⟨page - 1, limit⟩ ↔ 0 < (page - 1) * limit) ∧
    ((paginateResults page limit totalCount).next =
        some ⟨page + 1, limit⟩ ↔ page * limit < totalCount) ∧
    (paginateResults 2 10 25).previous = some ⟨1, 10⟩ ∧
    (paginateResults 2 10 25).next = some ⟨3, 10⟩ := by
  refine ⟨rfl, rfl, ?_, ?_, by decide, by decide⟩
  · simp only [paginateResults]
    split <;> rename_i h
    · simpa using h
    · simpa using h
  · simp only [paginateResults]
    split <;> rename_i h
    · simpa using h
    · simpa using h

/-- Witness for `paginateResults_contract` at page 2, limit 10,
totalCount 25. -/
theorem paginateResults_contract_witness :
    (paginateResults 2 10 25).startIndex = 10 ∧
    (paginateResults 2 10 25).next = some ⟨3, 10⟩ := by
  have h := paginateResults_contract 2 10 25 (by decide) (by decide)
  exact ⟨by rw [h.1], h.2.2.2.2.2⟩

/-- C2: The post submission validator fails with `InvalidPostType`
when the declared type is not Text/Link/Image; fails with
`EmptySubmission` when the field corresponding to the declared type is
missing or blank (e.g. `postType = "Link"`, `linkSubmission = ""`); and on
success returns a result in which exactly one output field is populated,
the one matching the declared type. -/
theorem postTypeValidator_contract
    (t : String) (text link image : Option String) :
    (t ≠ "Text" → t ≠ "Link" → t ≠ "Image" →
      postTypeValidator t text link image = .error .invalidPostType) ∧
    (t = "Text" → (text = none ∨ text = some "") →
      postTypeValidator t text link image = .error .emptySubmission) ∧
    (t = "Link" → (link = none ∨ link = some "") →
      postTypeValidator t text link image = .error .emptySubmission) ∧
    (t = "Image" → (image = none ∨ image = some "") →
      postTypeValidator t text link image = .error .emptySubmission) ∧
    (∀ v, postTypeValidator t text link image = .ok v →
      v.postType = t ∧
      ((t = "Text" ∧ v.textSubmission ≠ none ∧
          v.linkSubmission = none ∧ v.imageSubmission = none) ∨
       (t = "Link" ∧ v.linkSubmission ≠ none ∧
          v.textSubmission = none ∧ v.imageSubmission = none) ∨
       (t = "Image" ∧ v.imageSubmission ≠ none ∧
          v.textSubmission = none ∧ v.linkSubmission = none))) := by
  unfold postTypeValidator
  split
  · refine ⟨fun h _ _ => absurd rfl h, ?_, ?_, ?_, ?_⟩
    · rintro - (rfl | rfl) <;> simp
    · exact fun h => absurd h (by decide)
    · exact fun h => absurd h (by decide)
    · intro v hv
      cases text with
      | none => cases hv
      | some s =>
        simp only at hv
        split at hv
        · cases hv
        · cases hv; exact ⟨rfl, Or.inl ⟨rfl, by simp, rfl, rfl⟩⟩
  · refine ⟨fun _ h _ => absurd rfl h, ?_, ?_, ?_, ?_⟩
    · exact fun h => absurd h (by decide)
    · rintro - (rfl | rfl) <;> simp
    · exact fun h => absurd h (by decide)
    · intro v hv
      cases link with
      | none => cases hv
      | some s =>
        simp only at hv
        split at hv
        · cases hv
        · cases hv; exact ⟨rfl, Or.inr (Or.inl ⟨rfl, by simp, rfl, rfl⟩)⟩
  · refine ⟨fun _ _ h => absurd rfl h, ?_, ?_, ?_, ?_⟩
    · exact fun h => absurd h (by decide)
    · exact fun h => absurd h (by decide)
    · rintro - (rfl | rfl) <;> simp
    · intro v hv
      cases image with
      | none => cases hv
      | some s =>
        simp only at hv
        split at hv
        · cases hv
        · cases hv; exact ⟨rfl, Or.inr (Or.inr ⟨rfl, by simp, rfl, rfl⟩)⟩
  · rename_i h1 h2 h3
    refine ⟨fun _ _ _ => rfl, ?_, ?_, ?_, fun v hv => by cases hv⟩
    · rintro rfl; exact absurd rfl h1
    · rintro rfl; exact absurd rfl h2
    · rintro rfl; exact absurd rfl h3

/-- Witness for `postTypeValidator_contract`: `postType = "Link"` with
`linkSubmission = ""` fails with `EmptySubmission`, and `postType =
"Video"` fails with `InvalidPostType`. -/
theorem postTypeValidator_contract_witness :
    postTypeValidator "Link" none (some "") none =
      .error .emptySubmission ∧
    postTypeValidator "Video" (some "x") none none =
      .error .invalidPostType := by
  constructor
  · exact (postTypeValidator_contract "Link" none (some "") none).2.2.1
      rfl (Or.inr rfl)
  · exact (postTypeValidator_contract "Video" (some "x") none none).1
      (by decide) (by decide) (by decide)

/-- C7 counterexample: the claim asserts `endIndex ≤ totalCount` for
every page ≥ 1, limit > 0, totalCount ≥ 0; it fails at page 1, limit 10,
totalCount 5, where `endIndex = 10 > 5`. -/
theorem paginateResults_endIndex_not_le_totalCount :
    ¬ ((paginateResults 1 10 5).endIndex ≤ 5) := by decide

/-- C7 (amended): for every page ≥ 1, limit > 0, totalCount ≥ 0, the
pagination calculator's output satisfies
`0 ≤ startIndex ≤ endIndex`, the previous reference is absent iff
`startIndex = 0`, and `endIndex ≤ totalCount` whenever the next reference
is present. -/
theorem paginateResults_invariant (page limit totalCount : Nat)
    (hpage : 1 ≤ page) (hlimit : 0 < limit) :
    (paginateResults page limit totalCount).startIndex ≤
      (paginateResults page limit totalCount).endIndex ∧
    ((paginateResults page limit totalCount).previous = none ↔
      (paginateResults page limit totalCount).startIndex = 0) ∧
    (∀ r, (paginateResults page limit totalCount).next = some r →
      (paginateResults page limit totalCount).endIndex ≤ totalCount) := by
  refine ⟨Nat.mul_le_mul_right limit (Nat.sub_le page 1), ?_, ?_⟩
  · simp only [paginateResults]
    split <;> rename_i h
    · simp only [Nat.pos_iff_ne_zero] at h
      simpa using h
    · simp only [Nat.pos_iff_ne_zero, not_not] at h
      simpa using h
  · intro r hr
    simp only [paginateResults] at hr ⊢
    split at hr <;> rename_i h
    · exact Nat.le_of_lt h
    · cases hr

/-- Witness for `paginateResults_invariant` at page 2, limit 10,
totalCount 25. -/
theorem paginateResults_invariant_witness :
    (paginateResults 2 10 25).startIndex ≤
      (paginateResults 2 10 25).endIndex ∧
    (paginateResults 2 10 25).endIndex ≤ 25 :=
  have h := paginateResults_invariant 2 10 25 (by decide) (by decide)
  ⟨h.1, h.2.2 ⟨3, 10⟩ (by decide)⟩

/-- C8: The pagination calculator is total on its contract domain: for
`totalCount = 0` it returns a well-defined window (with no next
reference), `page = 1` yields no previous reference, a page entirely
beyond the last item yields no next reference and an empty result set, and
`paginate 1 10 5` yields neither previous nor next. -/
theorem paginateResults_edge_cases :
    (∀ page limit, paginateResults page limit 0 =
      ⟨(page - 1) * limit, page * limit,
        if 0 < (page - 1) * limit then some ⟨page - 1, limit⟩ else none,
        none⟩) ∧
    (∀ limit totalCount,
      (paginateResults 1 limit totalCount).previous = none) ∧
    (∀ (posts : List Nat) (page limit : Nat),
      posts.length ≤ (page - 1) * limit →
      (paginateResults page limit posts.length).next = none ∧
      getNewResults posts page limit = []) ∧
    (paginateResults 1 10 5).previous = none ∧
    (paginateResults 1 10 5).next = none := by
  refine ⟨?_, ?_, ?_, by decide, by decide⟩
  · intro page limit
    simp only [paginateResults]
    split <;> simp
  · intro limit totalCount
    simp [paginateResults]
  · intro posts page limit h
    have hend : posts.length ≤ page * limit :=
      le_trans h (Nat.mul_le_mul_right limit (Nat.sub_le page 1))
    constructor
    · simp only [paginateResults]
      split <;> rename_i hc
      · exact absurd hc (not_lt.mpr hend)
      · rfl
    · simp only [getNewResults, paginateResults]
      rw [List.drop_eq_nil_of_le h]
      simp

/-- Witness for `paginateResults_edge_cases`: a page entirely beyond a
5-element list yields no next reference and an empty result set. -/
theorem paginateResults_edge_cases_witness :
    (paginateResults 2 10 ([0, 1, 2, 3, 4] : List Nat).length).next =
      none ∧
    getNewResults ([0, 1, 2, 3, 4] : List Nat) 2 10 = [] :=
  paginateResults_edge_cases.2.2.1 [0, 1, 2, 3, 4] 2 10 (by decide)

end Reddish

namespace Reddish

/-! ## Helper lemmas about lookups and saves -/

theorem find?_map_replace {α : Type} (getId : α → Nat) (i : Nat) (r : α)
    (hr : getId r = i) (xs : List α) (x : α)
    (hx : xs.find? (fun y => getId y == i) = some x) :
    (xs.map (fun y => if getId y == i then r else y)).find?
      (fun y => getId y == i) = some r := by
  induction xs with
  | nil => cases hx
  | cons a as ih =>
    cases h : (getId a == i) with
    | false =>
      simp only [List.find?_cons, List.map_cons, h, cond_false] at hx ⊢
      rw [if_neg (by simp [h])]
      simp only [List.find?_cons, h, cond_false]
      exact ih hx
    | true =>
      simp only [List.map_cons]
      rw [if_pos h]
      simp [List.find?_cons, hr]

theorem DB.findSubreddit_saveSubreddit (db : DB) (i : Nat)
    (s r : SubredditRec) (h : db.findSubreddit i = some s)
    (hr : r.sid = s.sid) :
    (db.saveSubreddit r).findSubreddit i = some r := by
  have hs : s.sid = i := by simpa using List.find?_some h
  show (db.subreddits.map (fun x => if x.sid == r.sid then r else x)).find?
      (fun y => y.sid == i) = some r
  simp only [hr, hs]
  exact find?_map_replace SubredditRec.sid i r (hr.trans hs) db.subreddits s h

theorem DB.findUser_saveUser (db : DB) (i : Nat) (u r : UserRec)
    (h : db.findUser i = some u) (hr : r.uid = u.uid) :
    (db.saveUser r).findUser i = some r := by
  have hu : u.uid = i := by simpa using List.find?_some h
  show (db.users.map (fun x => if x.uid == r.uid then r else x)).find?
      (fun y => y.uid == i) = some r
  simp only [hr, hu]
  exact find?_map_replace UserRec.uid i r (hr.trans hu) db.users u h

theorem DB.findPost_savePost (db : DB) (i : Nat) (p r : PostRec)
    (h : db.findPost i = some p) (hr : r.pid = p.pid) :
    (db.savePost r).findPost i = some r := by
  have hp : p.pid = i := by simpa using List.find?_some h
  show (db.posts.map (fun x => if x.pid == r.pid then r else x)).find?
      (fun y => y.pid == i) = some r
  simp only [hr, hp]
  exact find?_map_replace PostRec.pid i r (hr.trans hp) db.posts p h

theorem DB.findSubreddit_saveUser (db : DB) (u : UserRec) (i : Nat) :
    (db.saveUser u).findSubreddit i = db.findSubreddit i := rfl

theorem DB.findUser_saveSubreddit (db : DB) (s : SubredditRec) (i : Nat) :
    (db.saveSubreddit s).findUser i = db.findUser i := rfl

theorem DB.findUser_setPosts (db : DB) (ps : List PostRec) (i : Nat) :
    (DB.findUser { db with posts := ps } i) = db.findUser i := rfl

theorem DB.findSubreddit_setPosts (db : DB) (ps : List PostRec) (i : Nat) :
    (DB.findSubreddit { db with posts := ps } i) = db.findSubreddit i := rfl

theorem postFirst_nil : PostFirst [] := by
  intro i hi
  simp at hi

theorem postFirst_cons (a : WriteEvent) (rest : List WriteEvent)
    (ha : a.isPostWrite = true) (hb : a.isRefWrite = false) :
    PostFirst (a :: rest) := by
  intro i hi
  cases i with
  | zero => simp [hb] at hi
  | succ n => simp [ha]

end Reddish

namespace Reddish

/-! ## Claims about the request handlers -/

/-- C3: for every edit (PATCH) or delete (DELETE) request in which the
post and the requesting user both exist but the requester is not the
post's author, the handler surfaces the forbidden-actor error as a status
code (401 in the source) with the message "Access is denied.", and the
database — in particular the post — is unchanged. -/
theorem nonAuthor_request_rejected (db : DB) (reqUser id : Nat)
    (t l i : Option String) (upload : Option ImageRec) (now : Nat)
    (p : PostRec) (u : UserRec)
    (hp : db.findPost id = some p) (hu : db.findUser reqUser = some u)
    (hne : p.author ≠ u.uid) :
    patchPost db reqUser id t l i upload now =
      (.err 401 "Access is denied.", db) ∧
    deletePost db reqUser id = (.err 401 "Access is denied.", db, []) := by
  constructor
  · unfold patchPost
    simp only [hp, hu]
    rw [if_pos hne]
  · unfold deletePost
    simp only [hp, hu]
    rw [if_pos hne]

/-- Witness for `nonAuthor_request_rejected`: user 20 tries to edit and
delete post 1, whose author is user 10. -/
theorem nonAuthor_request_rejected_witness :
    patchPost sampleDB 20 1 (some "x") none none none 7 =
      (.err 401 "Access is denied.", sampleDB) ∧
    deletePost sampleDB 20 1 =
      (.err 401 "Access is denied.", sampleDB, []) :=
  nonAuthor_request_rejected sampleDB 20 1 (some "x") none none none 7
    samplePost sampleOther rfl rfl (by decide)

/-- C4: a successful `POST /` appends the new post's id to both the target
subreddit's `posts` array and the author's `posts` array (the author's
post karma is also incremented), and a successful `DELETE /:id` removes
the deleted post's id from both arrays. -/
theorem referential_arrays_consistent :
    (∀ (db : DB) (reqUser : Nat) (req : CreateRequest)
        (upload : Option ImageRec) (newId : Nat) (db' : DB)
        (tr : List WriteEvent) (u : UserRec) (s : SubredditRec),
      db.findUser reqUser = some u →
      db.findSubreddit req.subreddit = some s →
      createPost db reqUser req upload newId = (.ok 201, db', tr) →
      db'.findSubreddit req.subreddit =
        some { s with posts := s.posts ++ [newId] } ∧
      db'.findUser reqUser =
        some { u with posts := u.posts ++ [newId],
                      postKarma := u.postKarma + 1 }) ∧
    (∀ (db : DB) (reqUser id : Nat) (db' : DB) (tr : List WriteEvent)
        (p : PostRec) (u : UserRec) (s : SubredditRec),
      db.findPost id = some p →
      db.findUser reqUser = some u →
      db.findSubreddit p.subreddit = some s →
      deletePost db reqUser id = (.ok 204, db', tr) →
      db'.findSubreddit p.subreddit =
        some { s with posts := s.posts.filter (fun q => q != id) } ∧
      db'.findUser reqUser =
        some { u with posts := u.posts.filter (fun q => q != id) }) := by
  constructor
  · intro db reqUser req upload newId db' tr u s hu hs h
    unfold createPost at h
    cases hval : postTypeValidator req.postType req.textSubmission
        req.linkSubmission req.imageSubmission with
    | error e => rw [hval] at h; simp at h
    | ok v =>
      rw [hval] at h
      simp only [hu, hs] at h
      cases hb : buildNewPost req v u newId upload with
      | none => rw [hb] at h; simp at h
      | some newPost =>
        rw [hb] at h
        simp only [Prod.mk.injEq] at h
        obtain ⟨-, hdb, -⟩ := h
        subst hdb
        constructor
        · rw [DB.findSubreddit_saveUser]
          have hs2 : DB.findSubreddit
              { db with posts := db.posts ++ [newPost] } req.subreddit =
              some s := hs
          exact DB.findSubreddit_saveSubreddit _ _ s _ hs2 rfl
        · have hu2 : DB.findUser
              (({ db with posts := db.posts ++ [newPost] }).saveSubreddit
                { s with posts := s.posts ++ [newId] }) reqUser =
              some u := hu
          exact DB.findUser_saveUser _ _ u _ hu2 rfl
  · intro db reqUser id db' tr p u s hp hu hs h
    unfold deletePost at h
    simp only [hp, hu] at h
    by_cases hne : p.author = u.uid
    · rw [if_neg (by simp [hne])] at h
      rw [hs] at h
      simp only [Prod.mk.injEq] at h
      obtain ⟨-, hdb, -⟩ := h
      subst hdb
      constructor
      · rw [DB.findSubreddit_saveUser]
        have hs2 : DB.findSubreddit
            { db with posts := db.posts.filter (fun q => q.pid != id) }
            p.subreddit = some s := hs
        exact DB.findSubreddit_saveSubreddit _ _ s _ hs2 rfl
      · have hu2 : DB.findUser
            (({ db with
                posts := db.posts.filter (fun q => q.pid != id) }).saveSubreddit
              { s with posts := s.posts.filter (fun q => q != id) }) reqUser =
            some u := hu
        exact DB.findUser_saveUser _ _ u _ hu2 rfl
    · rw [if_pos hne] at h
      simp at h

/-- Witness for `referential_arrays_consistent`: creating post 2 in
`sampleDB` appends 2 to subreddit 5's and user 10's `posts` arrays. -/
theorem referential_arrays_consistent_witness :
    ((createPost sampleDB 10 sampleCreateReq none 2).2.1).findSubreddit 5 =
      some { sampleSub with posts := sampleSub.posts ++ [2] } ∧
    ((createPost sampleDB 10 sampleCreateReq none 2).2.1).findUser 10 =
      some { sampleAuthor with posts := sampleAuthor.posts ++ [2],
                               postKarma := sampleAuthor.postKarma + 1 } :=
  referential_arrays_consistent.1 sampleDB 10 sampleCreateReq none 2
    (createPost sampleDB 10 sampleCreateReq none 2).2.1
    (createPost sampleDB 10 sampleCreateReq none 2).2.2
    sampleAuthor sampleSub rfl rfl rfl

/-- C5: in `POST /` and `DELETE /:id` the parent subreddit record and the
author record are written only after the post itself has been durably
created or deleted: in every execution trace, any subreddit or author
write is strictly preceded by the post write. -/
theorem subreddit_author_written_after_post :
    (∀ (db : DB) (reqUser : Nat) (req : CreateRequest)
        (upload : Option ImageRec) (newId : Nat),
      PostFirst (createPost db reqUser req upload newId).2.2) ∧
    (∀ (db : DB) (reqUser id : Nat),
      PostFirst (deletePost db reqUser id).2.2) := by
  constructor
  · intro db reqUser req upload newId
    unfold createPost
    repeat' split
    all_goals first
      | exact postFirst_nil
      | exact postFirst_cons _ _ rfl rfl
  · intro db reqUser id
    unfold deletePost
    repeat' split
    all_goals first
      | exact postFirst_nil
      | exact postFirst_cons _ _ rfl rfl

/-- Witness for `subreddit_author_written_after_post`: in the concrete
successful creation of post 2, a reference write occurs among the first
two events and the post write already occurs among the first one. -/
theorem subreddit_author_written_after_post_witness :
    (((createPost sampleDB 10 sampleCreateReq none 2).2.2).take 1).any
      WriteEvent.isPostWrite = true :=
  subreddit_author_written_after_post.1 sampleDB 10 sampleCreateReq none 2
    1 (by decide)

/-- C6: if the media upload service fails during `POST /` or `PATCH /:id`,
no already-persisted post state is corrupted: the handler performs no
database write at all, so every post record that existed before the
failing request has the same contents afterwards. -/
theorem upload_failure_preserves_db :
    (∀ (db : DB) (reqUser : Nat) (req : CreateRequest) (newId : Nat),
      req.postType = "Image" →
      (createPost db reqUser req none newId).2.1 = db) ∧
    (∀ (db : DB) (reqUser id : Nat) (t l i : Option String) (now : Nat)
        (p : PostRec),
      db.findPost id = some p → p.postType = "Image" →
      (patchPost db reqUser id t l i none now).2 = db) := by
  constructor
  · intro db reqUser req newId himg
    have hb : ∀ (v : ValidatedFields) (a : UserRec),
        buildNewPost req v a newId none = none := by
      intro v a; simp [buildNewPost, himg]
    unfold createPost
    repeat' split
    all_goals first | rfl | simp_all [hb]
  · intro db reqUser id t l i now p hp himg
    have hsw : ∀ v : ValidatedFields,
        patchSwitch p v none = .error (.err 401 "Image upload failed.") := by
      intro v; simp [patchSwitch, himg]
    unfold patchPost
    simp only [hp]
    repeat' split
    all_goals first | rfl | simp_all [hsw]

/-- Witness for `upload_failure_preserves_db`: an Image creation request
against `sampleDB` whose upload fails leaves the database unchanged. -/
theorem upload_failure_preserves_db_witness :
    (createPost sampleDB 10 sampleImageReq none 3).2.1 = sampleDB :=
  upload_failure_preserves_db.1 sampleDB 10 sampleImageReq 3 rfl

/-- C9 (code-bug evaluation): deleting a post whose subreddit record is
absent does not end in the intended 404 — building the 404 message
dereferences the null subreddit (`subreddit._id`, posts.js line 221) and
the handler crashes with a TypeError instead — though it still performs no
write: the database is returned unchanged. -/
theorem delete_missing_subreddit_crash :
    deletePost orphanDB 10 2 =
      (.crash "TypeError: null dereference building the 404 message",
        orphanDB, []) := by
  rfl

/-- C10: the edit handler, when the stored post type is Text, assigns only
the post's `textSubmission` field plus its `updatedAt` timestamp, leaving
`linkSubmission`, `imageSubmission`, the title, the author, the vote count
and the voter list unchanged; symmetrically a Link edit assigns only
`linkSubmission` and an Image edit assigns only `imageSubmission`. -/
theorem patch_updates_only_declared_field (db : DB) (reqUser id : Nat)
    (t l i : Option String) (upload : Option ImageRec) (now : Nat)
    (p : PostRec) (u : UserRec) (v : ValidatedFields)
    (hp : db.findPost id = some p) (hu : db.findUser reqUser = some u)
    (hauth : p.author = u.uid)
    (hval : postTypeValidator p.postType t l i = .ok v) :
    (p.postType = "Text" →
      patchPost db reqUser id t l i upload now =
        (.ok 202, db.savePost
          { p with textSubmission := v.textSubmission,
                   updatedAt := now })) ∧
    (p.postType = "Link" →
      patchPost db reqUser id t l i upload now =
        (.ok 202, db.savePost
          { p with linkSubmission := v.linkSubmission,
                   updatedAt := now })) ∧
    (∀ img, upload = some img → p.postType = "Image" →
      patchPost db reqUser id t l i upload now =
        (.ok 202, db.savePost
          { p with imageSubmission := some img, updatedAt := now })) := by
  refine ⟨?_, ?_, ?_⟩
  · intro htype
    unfold patchPost
    simp only [hp, hu, hval]
    rw [if_neg (by simp [hauth])]
    unfold patchSwitch
    rw [if_pos htype]
  · intro htype
    unfold patchPost
    simp only [hp, hu, hval]
    rw [if_neg (by simp [hauth])]
    unfold patchSwitch
    rw [if_neg (by simp [htype]), if_pos htype]
  · intro img himg htype
    unfold patchPost
    simp only [hp, hu, hval]
    rw [if_neg (by simp [hauth])]
    unfold patchSwitch
    rw [if_neg (by simp [htype]), if_neg (by simp [htype]),
      if_pos htype, himg]

/-- Witness for `patch_updates_only_declared_field`: editing the Text post
1 as its author rewrites only `textSubmission` and `updatedAt`. -/
theorem patch_updates_only_declared_field_witness :
    patchPost sampleDB 10 1 (some "new") none none none 7 =
      (.ok 202, sampleDB.savePost
        { samplePost with textSubmission := some "new", updatedAt := 7 }) :=
  (patch_updates_only_declared_field sampleDB 10 1 (some "new") none none
      none 7 samplePost sampleAuthor ⟨"Text", some "new", none, none⟩
      rfl rfl rfl rfl).1 rfl

end Reddish
